import Mathlib

/-!
Shallow embedding of `src/MovieEnc_v1.1.0.py` (MovieEncoder), covering the
encode-parameter resolver inside `run_ffmpeg`, the probe-result handling, the
output-path construction and the settings store (`load_config` / `save_config`).

Modelling conventions:
* Python floats are modelled as exact rationals (`ℚ`); the literal `9.2`
  elaborates to the exact rational 46/5.
* Python `int(x)` on a float truncates toward zero; `pyInt` below models this.
* External processes (ffprobe, ffmpeg) are not run; the environment `Env`
  carries the results the probe helpers would return, and `runFfmpeg` records
  which external invocations happen, in order, as a list of `Event`s.
* Python string helpers (`strip`, `split`, `int()`, `os.path` helpers) are
  modelled by structurally recursive functions on the character list, so
  that every definition evaluates inside the kernel.
-/

namespace MovieEnc

/-- Python `str.strip()`: remove leading and trailing whitespace. -/
def pyStrip (s : String) : String :=
  ⟨((s.data.dropWhile Char.isWhitespace).reverse.dropWhile Char.isWhitespace).reverse⟩

/-- Python `str.split(c)` for a one-character separator, on character lists:
splitting the empty string yields one empty group, and every occurrence of
the separator starts a new group. -/
def splitOnChar (c : Char) : List Char → List (List Char)
  | [] => [[]]
  | a :: as =>
    match splitOnChar c as with
    | [] => [[]]
    | g :: gs => if a = c then [] :: g :: gs else (a :: g) :: gs

/-- The numeric value of a nonempty all-digit character list. -/
def digitsToNat (l : List Char) : Option ℕ :=
  if l = [] then none
  else
    l.foldl
      (fun acc c =>
        match acc with
        | none => none
        | some n => if c.isDigit then some (10 * n + (c.toNat - 48)) else none)
      (some 0)

/-- Python `int()` on the strings the prober prints: an optional sign
followed by digits; anything else raises (here: `none`). -/
def parseIntChars (l : List Char) : Option ℤ :=
  match l with
  | '-' :: rest => (digitsToNat rest).map fun n => -(n : ℤ)
  | '+' :: rest => (digitsToNat rest).map fun n => (n : ℤ)
  | _ => (digitsToNat l).map fun n => (n : ℤ)

/-- Python `int()` applied to a (real-valued) number: truncation toward zero. -/
def pyInt (q : ℚ) : ℤ := if 0 ≤ q then ⌊q⌋ else ⌈q⌉

/-- `TARGET_SIZE_MB = 9.2` (line 34 of the source). -/
def TARGET_SIZE_MB : ℚ := 9.2

/-- `AUDIO_BITRATE = 128000` bps (line 35 of the source). -/
def AUDIO_BITRATE : ℚ := 128000

/-- Result of the size-target bitrate computation (lines 186-197). -/
inductive BitrateResult where
  | insufficientBudget
  | invalidBitrate
  | ok (kbps : ℤ)
deriving DecidableEq, Repr

/-- Lines 186-197 of `run_ffmpeg`: derive the video bitrate (kbps) from the
target size and the probed duration, or fail.
`target_size_bits = TARGET_SIZE_MB * 1000 * 1000 * 8`,
`audio_total_bits = AUDIO_BITRATE * duration`,
`video_total_bits = target_size_bits - audio_total_bits`; error if that is
`<= 0`; otherwise `video_bitrate_kbps = int(video_total_bits / duration / 1000)`,
error if that is `<= 0`. -/
def computeSizeTarget (duration : ℚ) : BitrateResult :=
  let target_size_bits : ℚ := TARGET_SIZE_MB * 1000 * 1000 * 8
  let audio_total_bits : ℚ := AUDIO_BITRATE * duration
  let video_total_bits : ℚ := target_size_bits - audio_total_bits
  if video_total_bits ≤ 0 then .insufficientBudget
  else
    let video_bitrate_bps : ℚ := video_total_bits / duration
    let video_bitrate_kbps : ℤ := pyInt (video_bitrate_bps / 1000)
    if video_bitrate_kbps ≤ 0 then .invalidBitrate
    else .ok video_bitrate_kbps

/-- Lines 145-166 of `run_ffmpeg`: from the mode string and the verticality
flag, select the optional scaling filter, the label used in the output file
name (`resolution_str`), and whether bitrate mode is used (`use_bitrate`).
The vertical presets are the dict `{"360p": "360:-1", "480p": "480:-1",
"720p": "720:-1"}`, the landscape presets `{"360p": "640:360",
"480p": "854:480", "720p": "1280:720"}`; mode `"9.5MB"` uses
`scale=480:-1` (vertical) or `scale=854:480` (landscape); any other mode
gives no filter and the label `"default"`. -/
def scaleSelect (mode : String) (vertical : Bool) : Option String × String × Bool :=
  if mode = "360p" ∨ mode = "480p" ∨ mode = "720p" then
    let preset :=
      if vertical then
        if mode = "360p" then "360:-1" else if mode = "480p" then "480:-1" else "720:-1"
      else
        if mode = "360p" then "640:360" else if mode = "480p" then "854:480" else "1280:720"
    (some ("scale=" ++ preset), mode, false)
  else if mode = "9.5MB" then
    (if vertical then some "scale=480:-1" else some "scale=854:480", mode, true)
  else
    (none, "default", false)

/-- Models `os.path.join dir name` for a relative `name`: empty `dir` yields
`name`; a `dir` already ending in the separator is not given another one. -/
def joinPath (dir name : String) : String :=
  if dir = "" then name
  else if dir.data.getLastD ' ' = '/' then dir ++ name
  else dir ++ "/" ++ name

/-- Models `os.path.basename`: the component after the last separator. -/
def basename (p : String) : String := ⟨(splitOnChar '/' p.data).getLastD []⟩

/-- Models `os.path.splitext(s)[0]` for ordinary names: the part before the
last dot, the whole name when there is no dot or the only dot is leading. -/
def splitextRoot (s : String) : String :=
  let parts := splitOnChar '.' s.data
  match parts with
  | [] => s
  | [_] => s
  | p :: rest =>
    if p = [] ∧ rest.length = 1 then s
    else ⟨List.intercalate ['.'] parts.dropLast⟩

/-- Line 178 of the source: the output file path is the output directory
joined with `base_name ++ "_" ++ resolution_str ++ ".mp4"`. -/
def outputFileName (dir base label : String) : String :=
  joinPath dir (base ++ "_" ++ label ++ ".mp4")

/-- Lines 168-174 of `run_ffmpeg`: read and strip the output-directory entry;
when blank, substitute the Desktop directory under the home directory; then
fail if the resulting directory does not exist. -/
def resolveOutputDir (entry home : String) (pathExists : String → Bool) :
    Except String String :=
  let od := pyStrip entry
  let output_dir := if od = "" then joinPath home "Desktop" else od
  if pathExists output_dir then .ok output_dir else .error output_dir

/-- Line 140 of the source: `orig_width, orig_height = map(int, orig_res.split("x"))`.
`none` models the uncaught `ValueError` when the string is not exactly two
integers separated by `x`. -/
def parseResolution (s : String) : Option (Int × Int) :=
  match splitOnChar 'x' s.data with
  | [w, h] =>
    match parseIntChars w, parseIntChars h with
    | some a, some b => some (a, b)
    | _, _ => none
  | _ => none

/-- Lines 205-209: video arguments of the quality (CRF) branch. -/
def crfArgs (use_nvenc : Bool) : List String :=
  if use_nvenc then ["-c:v", "h264_nvenc", "-preset", "slow", "-cq", "23"]
  else ["-c:v", "libx264", "-preset", "slow", "-crf", "23"]

/-- Lines 199-202: video arguments of the bitrate branch. -/
def bitrateArgs (use_nvenc : Bool) (kbps : ℤ) : List String :=
  if use_nvenc then
    ["-b:v", toString kbps ++ "k", "-c:v", "h264_nvenc", "-preset", "slow"]
  else
    ["-b:v", toString kbps ++ "k", "-c:v", "libx264", "-preset", "slow"]

/-- Lines 212-217: fixed audio arguments followed by the output path. -/
def audioArgs (output_file : String) : List String :=
  ["-c:a", "aac", "-b:a", "128k", "-ar", "44100", output_file]

/-- An external-process invocation recorded by `runFfmpeg`, in program order:
the ffprobe duration call, the ffprobe resolution call, the ffmpeg encode. -/
inductive Event where
  | probeDuration
  | probeResolution
  | encode (cmd : List String)
deriving DecidableEq, Repr

/-- True when the event list contains no encoder invocation. -/
def encoderFree (evs : List Event) : Bool :=
  evs.all fun e => match e with | .encode _ => false | _ => true

/-- The outcome of one `run_ffmpeg` call: each `err*` constructor is one of
the error message boxes (in source order), `crash` the uncaught exception on
a malformed resolution string, `runEncode` the final encoder invocation. -/
inductive Outcome where
  | errNoInput
  | errSourceNotFound
  | errDurationProbe
  | crash
  | errOutputDirMissing (dir : String)
  | errInsufficientBudget
  | errInvalidBitrate
  | runEncode (cmd : List String) (output_file : String)
deriving DecidableEq, Repr

/-- Lines 185-202 of `run_ffmpeg`: the bitrate branch of the command
construction (both probe invocations have already happened when it runs,
hence the two probe events in every result). -/
def sizeBranch (duration : ℚ) (use_nvenc : Bool) (cmd0 : List String)
    (output_file : String) : List Event × Outcome :=
  match computeSizeTarget duration with
  | .insufficientBudget =>
    ([.probeDuration, .probeResolution], .errInsufficientBudget)
  | .invalidBitrate =>
    ([.probeDuration, .probeResolution], .errInvalidBitrate)
  | .ok kbps =>
    let cmd := cmd0 ++ bitrateArgs use_nvenc kbps ++ audioArgs output_file
    ([.probeDuration, .probeResolution, .encode cmd], .runEncode cmd output_file)

/-- The inputs `run_ffmpeg` reads: the two entry widgets, the selected mode,
the NVENC checkbox, the filesystem existence test, the home directory, and
the values the two probe helpers would return (`none` models
`get_video_duration` returning `None` after a caught failure; the string
`"unknown"` models `get_video_resolution` returning after a caught failure). -/
structure Env where
  inputEntry : String
  outputDirEntry : String
  mode : String
  useNvenc : Bool
  pathExists : String → Bool
  home : String
  durationResult : Option ℚ
  resolutionResult : String

/-- Lines 117-223 of the source, `run_ffmpeg`: validates the input file,
probes duration and resolution, selects scaling and rate control, resolves
the output directory, builds the ffmpeg command and runs it. The returned
list records the external invocations that happened, in order. -/
def runFfmpeg (env : Env) : List Event × Outcome :=
  let input_file := pyStrip env.inputEntry
  if input_file = "" then ([], .errNoInput)
  else if env.pathExists input_file = false then ([], .errSourceNotFound)
  else
    match env.durationResult with
    | none => ([.probeDuration], .errDurationProbe)
    | some duration =>
      let use_nvenc := env.useNvenc
      let mode := env.mode
      let orig_res := env.resolutionResult
      let verticality : Option Bool :=
        if orig_res ≠ "unknown" then
          match parseResolution orig_res with
          | some (w, h) => some (decide (w < h))
          | none => none
        else some false
      match verticality with
      | none => ([.probeDuration, .probeResolution], .crash)
      | some vertical =>
        let sel := scaleSelect mode vertical
        let scaling_filter := sel.1
        let resolution_str := sel.2.1
        let use_bitrate := sel.2.2
        match resolveOutputDir env.outputDirEntry env.home env.pathExists with
        | .error d => ([.probeDuration, .probeResolution], .errOutputDirMissing d)
        | .ok output_dir =>
          let base_name := splitextRoot (basename input_file)
          let output_file := outputFileName output_dir base_name resolution_str
          let cmd0 := ["ffmpeg", "-i", input_file] ++
            (match scaling_filter with | some f => ["-vf", f] | none => [])
          if use_bitrate then
            sizeBranch duration use_nvenc cmd0 output_file
          else
            let cmd := cmd0 ++ crfArgs use_nvenc ++ audioArgs output_file
            ([.probeDuration, .probeResolution, .encode cmd],
             .runEncode cmd output_file)

/-! ## Settings store (lines 13-29) -/

/-- A JSON-like value, sufficient for the two-key settings object. -/
inductive JVal where
  | str (s : String)
  | bool (b : Bool)
  | obj (fields : List (String × JVal))

/-- The two persisted settings: `last_output_dir` and `use_nvenc`, with the
defaults applied at the call sites (lines 233-234): empty string and false. -/
structure Settings where
  last_output_dir : String
  use_nvenc : Bool
deriving DecidableEq, Repr

/-- The JSON object the program writes for a settings value. -/
def configOf (s : Settings) : JVal :=
  .obj [("last_output_dir", .str s.last_output_dir),
        ("use_nvenc", .bool s.use_nvenc)]

/-- Python `dict.get(k, default)` for a string-valued key. -/
def jgetStr (j : JVal) (k : String) (dflt : String) : String :=
  match j with
  | .obj fs =>
    match fs.lookup k with
    | some (.str v) => v
    | _ => dflt
  | _ => dflt

/-- Python `dict.get(k, default)` for a boolean-valued key. -/
def jgetBool (j : JVal) (k : String) (dflt : Bool) : Bool :=
  match j with
  | .obj fs =>
    match fs.lookup k with
    | some (.bool v) => v
    | _ => dflt
  | _ => dflt

/-- Lines 232-234: read the two settings out of the loaded dict with their
defaults. -/
def settingsFrom (j : JVal) : Settings :=
  { last_output_dir := jgetStr j "last_output_dir" ""
  , use_nvenc := jgetBool j "use_nvenc" false }

/-- `save_config` (lines 23-29): overwrite the config file in full with the
serialized dict. The file state is the parsed content, `none` when missing. -/
def save_config (data : JVal) (_fs : Option JVal) : Option JVal := some data

/-- `load_config` (lines 13-21): return the parsed file content, or the empty
dict when the file is missing (or unreadable). -/
def load_config (fs : Option JVal) : JVal :=
  match fs with
  | some j => j
  | none => .obj []


/-! ## Claim theorems -/

/-- Concrete environment: valid source and output dir, duration 600 s,
landscape 1920x1080, mode "9.5MB". -/
def envC3 : Env :=
  { inputEntry := "/v.mp4", outputDirEntry := "/out", mode := "9.5MB"
  , useNvenc := false
  , pathExists := fun s => s == "/v.mp4" || s == "/out"
  , home := "/home/u", durationResult := some 600
  , resolutionResult := "1920x1080" }

/-- C1, as stated, is false: for a vertical source (1080 < 1920) in mode
"360p" the code produces the filter string "scale=360:-1" (fixed value in
the width position, -1 in the height position), not "scale=-1:360". -/
theorem claim_C1_cx :
    (scaleSelect "360p" (decide ((1080 : ℤ) < 1920))).1 = some "scale=360:-1" ∧
    (scaleSelect "360p" (decide ((1080 : ℤ) < 1920))).1 ≠ some "scale=-1:360" := by
  constructor <;> decide

/-- C1 (amended): for every vertical source (width < height), modes P360,
P480, P720 and SizeTarget produce scale filters that fix the WIDTH at 360,
480, 720 and 480 respectively and leave the height automatic (-1). -/
theorem claim_C1 : ∀ w h : ℤ, w < h →
    (scaleSelect "360p" (decide (w < h))).1 = some "scale=360:-1" ∧
    (scaleSelect "480p" (decide (w < h))).1 = some "scale=480:-1" ∧
    (scaleSelect "720p" (decide (w < h))).1 = some "scale=720:-1" ∧
    (scaleSelect "9.5MB" (decide (w < h))).1 = some "scale=480:-1" := by
  intro w h hwh
  rw [decide_eq_true hwh]
  exact ⟨by decide, by decide, by decide, by decide⟩

/-- Witness for C1 (amended) at width 1080, height 1920. -/
theorem claim_C1_witness :
    (scaleSelect "360p" (decide ((1080 : ℤ) < 1920))).1 = some "scale=360:-1" ∧
    (scaleSelect "480p" (decide ((1080 : ℤ) < 1920))).1 = some "scale=480:-1" ∧
    (scaleSelect "720p" (decide ((1080 : ℤ) < 1920))).1 = some "scale=720:-1" ∧
    (scaleSelect "9.5MB" (decide ((1080 : ℤ) < 1920))).1 = some "scale=480:-1" :=
  claim_C1 1080 1920 (by decide)

/-- C7: for every landscape or square source (height <= width), the scale
filter is scale=640:360 for P360, scale=854:480 for P480, scale=1280:720 for
P720, and scale=854:480 for SizeTarget. -/
theorem claim_C7 : ∀ w h : ℤ, h ≤ w →
    (scaleSelect "360p" (decide (w < h))).1 = some "scale=640:360" ∧
    (scaleSelect "480p" (decide (w < h))).1 = some "scale=854:480" ∧
    (scaleSelect "720p" (decide (w < h))).1 = some "scale=1280:720" ∧
    (scaleSelect "9.5MB" (decide (w < h))).1 = some "scale=854:480" := by
  intro w h hle
  rw [decide_eq_false (not_lt.mpr hle)]
  exact ⟨by decide, by decide, by decide, by decide⟩

/-- Witness for C7 at width 1920, height 1080. -/
theorem claim_C7_witness :
    (scaleSelect "360p" (decide ((1920 : ℤ) < 1080))).1 = some "scale=640:360" ∧
    (scaleSelect "480p" (decide ((1920 : ℤ) < 1080))).1 = some "scale=854:480" ∧
    (scaleSelect "720p" (decide ((1920 : ℤ) < 1080))).1 = some "scale=1280:720" ∧
    (scaleSelect "9.5MB" (decide ((1920 : ℤ) < 1080))).1 = some "scale=854:480" :=
  claim_C7 1920 1080 (by decide)

/-- C2: for every duration d > 0 with videoBits = 9.2e6*8 - 128000*d > 0, the
resolver yields floor(videoBits / d / 1000) kbps, failing with the
invalid-bitrate error exactly when that floor is <= 0; at d = 60 the result
is 1098 kbps. -/
theorem claim_C2 :
    (∀ d : ℚ, 0 < d → 0 < 9.2 * 1000000 * 8 - 128000 * d →
      computeSizeTarget d =
        if ⌊(9.2 * 1000000 * 8 - 128000 * d) / d / 1000⌋ ≤ 0 then .invalidBitrate
        else .ok ⌊(9.2 * 1000000 * 8 - 128000 * d) / d / 1000⌋) ∧
    computeSizeTarget 60 = .ok 1098 := by
  constructor
  · intro d hd hv
    have hveq : TARGET_SIZE_MB * 1000 * 1000 * 8 - AUDIO_BITRATE * d
        = 9.2 * 1000000 * 8 - 128000 * d := by
      unfold TARGET_SIZE_MB AUDIO_BITRATE; ring
    have hq : (0 : ℚ) ≤ (9.2 * 1000000 * 8 - 128000 * d) / d / 1000 :=
      le_of_lt (div_pos (div_pos hv hd) (by norm_num))
    simp only [computeSizeTarget, hveq, pyInt]
    rw [if_neg (not_le.mpr hv), if_pos hq]
  · have h1 : TARGET_SIZE_MB * 1000 * 1000 * 8 - AUDIO_BITRATE * (60 : ℚ) = 65920000 := by
      unfold TARGET_SIZE_MB AUDIO_BITRATE; norm_num
    have hfl : (⌊(65920000 : ℚ) / 60 / 1000⌋ : ℤ) = 1098 := by
      rw [Int.floor_eq_iff]
      constructor <;> norm_num
    simp only [computeSizeTarget, h1, pyInt]
    rw [if_neg (by norm_num : ¬ (65920000 : ℚ) ≤ 0),
      if_pos (by positivity : (0 : ℚ) ≤ 65920000 / 60 / 1000), hfl,
      if_neg (by norm_num : ¬ (1098 : ℤ) ≤ 0)]

/-- Witness for C2 at d = 60. -/
theorem claim_C2_witness :
    computeSizeTarget 60 =
      if ⌊((9.2 : ℚ) * 1000000 * 8 - 128000 * 60) / 60 / 1000⌋ ≤ 0 then .invalidBitrate
      else .ok ⌊((9.2 : ℚ) * 1000000 * 8 - 128000 * 60) / 60 / 1000⌋ :=
  claim_C2.1 60 (by norm_num) (by norm_num)

/-- C3: whenever audioBits = 128000*d meets or exceeds the 73,600,000-bit
target budget, the size-target computation fails with the insufficient-budget
error; a full request with duration 600 s fails this way with no encoder
invocation (only the two probe calls happened). -/
theorem claim_C3 :
    (∀ d : ℚ, 0 < d → 9.2 * 1000000 * 8 ≤ 128000 * d →
      computeSizeTarget d = .insufficientBudget) ∧
    runFfmpeg envC3 = ([.probeDuration, .probeResolution], .errInsufficientBudget) := by
  constructor
  · intro d _ hge
    have hle : TARGET_SIZE_MB * 1000 * 1000 * 8 - AUDIO_BITRATE * d ≤ 0 := by
      unfold TARGET_SIZE_MB AUDIO_BITRATE
      have : (9.2 : ℚ) * 1000 * 1000 * 8 = 9.2 * 1000000 * 8 := by norm_num
      rw [this]
      linarith
    simp only [computeSizeTarget]
    rw [if_pos hle]
  · have h600 : computeSizeTarget 600 = .insufficientBudget := by
      have hle : TARGET_SIZE_MB * 1000 * 1000 * 8 - AUDIO_BITRATE * (600 : ℚ) ≤ 0 := by
        unfold TARGET_SIZE_MB AUDIO_BITRATE; norm_num
      simp only [computeSizeTarget]
      rw [if_pos hle]
    have hstep : runFfmpeg envC3 =
        sizeBranch 600 false ["ffmpeg", "-i", "/v.mp4", "-vf", "scale=854:480"]
          "/out/v_9.5MB.mp4" := rfl
    rw [hstep]
    simp only [sizeBranch, h600]

/-- Witness for C3 at d = 600 (audioBits = 76,800,000 >= 73,600,000). -/
theorem claim_C3_witness : computeSizeTarget 600 = .insufficientBudget :=
  claim_C3.1 600 (by norm_num) (by norm_num)

/-- C6: every mode outside the four known tokens yields no scale filter, the
label "default" and quality mode (no bitrate); quality mode always encodes
with the fixed constant 23 (crf for software, cq for hardware). -/
theorem claim_C6 : ∀ (m : String) (v : Bool),
    m ≠ "360p" → m ≠ "480p" → m ≠ "720p" → m ≠ "9.5MB" →
    scaleSelect m v = (none, "default", false) ∧
    crfArgs false = ["-c:v", "libx264", "-preset", "slow", "-crf", "23"] ∧
    crfArgs true = ["-c:v", "h264_nvenc", "-preset", "slow", "-cq", "23"] := by
  intro m v h1 h2 h3 h4
  refine ⟨?_, rfl, rfl⟩
  simp [scaleSelect, h1, h2, h3, h4]

/-- Witness for C6 with the unknown mode "mp3". -/
theorem claim_C6_witness :
    scaleSelect "mp3" false = (none, "default", false) ∧
    crfArgs false = ["-c:v", "libx264", "-preset", "slow", "-crf", "23"] ∧
    crfArgs true = ["-c:v", "h264_nvenc", "-preset", "slow", "-cq", "23"] :=
  claim_C6 "mp3" false (by decide) (by decide) (by decide) (by decide)

/-- C9: saving any settings value and loading gives back exactly the saved
dict, and reading the two keys out of it (with the call-site defaults)
recovers the settings value, for any prior file state. -/
theorem claim_C9 : ∀ (s : Settings) (fs : Option JVal),
    load_config (save_config (configOf s) fs) = configOf s ∧
    settingsFrom (load_config (save_config (configOf s) fs)) = s := by
  intro s fs
  exact ⟨rfl, by cases s; rfl⟩

/-- C10: when the output-directory entry strips to the empty string, the code
substitutes home/Desktop and only then checks existence: the request
continues with that directory when it exists and fails naming precisely that
directory when it does not. -/
theorem claim_C10 : ∀ (entry home : String) (pe : String → Bool),
    pyStrip entry = "" →
    resolveOutputDir entry home pe =
      if pe (joinPath home "Desktop") then .ok (joinPath home "Desktop")
      else .error (joinPath home "Desktop") := by
  intro entry home pe h
  simp [resolveOutputDir, h]

/-- Witness for C10: a whitespace-only entry with an existing Desktop. -/
theorem claim_C10_witness :
    resolveOutputDir "  " "/home/u" (fun _ => true) =
      if (fun _ => true) (joinPath "/home/u" "Desktop") then
        Except.ok (joinPath "/home/u" "Desktop")
      else Except.error (joinPath "/home/u" "Desktop") :=
  claim_C10 "  " "/home/u" (fun _ => true) (by decide)



/-- The five possible output-name labels (`resolution_str` values). -/
def modeLabels : List String := ["360p", "480p", "720p", "9.5MB", "default"]

/-- Splitting a list at an occurrence of an element that appears in neither
prefix determines both parts uniquely. -/
lemma sep_split_unique {α : Type} [DecidableEq α] (c : α) :
    ∀ (u1 u2 v1 v2 : List α), c ∉ u1 → c ∉ u2 →
      u1 ++ c :: v1 = u2 ++ c :: v2 → u1 = u2 ∧ v1 = v2 := by
  intro u1
  induction u1 with
  | nil =>
    intro u2 v1 v2 _ h2 heq
    cases u2 with
    | nil => simpa using heq
    | cons b bs =>
      rw [List.nil_append, List.cons_append] at heq
      injection heq with hc _
      subst hc
      exact absurd (List.mem_cons_self _ _) h2
  | cons a as ih =>
    intro u2 v1 v2 h1 h2 heq
    cases u2 with
    | nil =>
      rw [List.cons_append, List.nil_append] at heq
      injection heq with hc _
      subst hc
      exact absurd (List.mem_cons_self _ _) h1
    | cons b bs =>
      rw [List.cons_append, List.cons_append] at heq
      injection heq with hab htl
      subst hab
      obtain ⟨hu, hv⟩ := ih bs v1 v2
        (fun hm => h1 (List.mem_cons_of_mem _ hm))
        (fun hm => h2 (List.mem_cons_of_mem _ hm)) htl
      exact ⟨by rw [hu], hv⟩

/-- The file-name part `base ++ "_" ++ label ++ ".mp4"` is injective as long
as the labels contain no underscore: the separating underscore is the last
one in the string. -/
lemma fileName_inj (b1 b2 l1 l2 : String)
    (h1 : '_' ∉ l1.data) (h2 : '_' ∉ l2.data)
    (heq : b1 ++ "_" ++ l1 ++ ".mp4" = b2 ++ "_" ++ l2 ++ ".mp4") :
    b1 = b2 ∧ l1 = l2 := by
  have hd : b1.data ++ '_' :: (l1.data ++ ".mp4".data)
      = b2.data ++ '_' :: (l2.data ++ ".mp4".data) := by
    have h := congrArg String.data heq
    simp only [String.data_append, List.append_assoc] at h
    simpa using h
  have hrev : (l1.data ++ ".mp4".data).reverse ++ '_' :: b1.data.reverse
      = (l2.data ++ ".mp4".data).reverse ++ '_' :: b2.data.reverse := by
    have h := congrArg List.reverse hd
    simpa [List.reverse_append, List.append_assoc] using h
  have hn1 : '_' ∉ (l1.data ++ ".mp4".data).reverse := by
    simp only [List.mem_reverse, List.mem_append]
    rintro (hm | hm)
    · exact h1 hm
    · exact absurd hm (by decide)
  have hn2 : '_' ∉ (l2.data ++ ".mp4".data).reverse := by
    simp only [List.mem_reverse, List.mem_append]
    rintro (hm | hm)
    · exact h2 hm
    · exact absurd hm (by decide)
  obtain ⟨hw, hb⟩ := sep_split_unique '_' _ _ _ _ hn1 hn2 hrev
  have hl : l1 = l2 := by
    have := List.reverse_injective hw
    exact String.ext (List.append_cancel_right this)
  have hbs : b1 = b2 := String.ext (List.reverse_injective hb)
  exact ⟨hbs, hl⟩

/-- Appending on the left of a string is cancellable. -/
lemma string_append_left_cancel {a b c : String} (h : a ++ b = a ++ c) : b = c := by
  have hd := congrArg String.data h
  simp only [String.data_append] at hd
  exact String.ext (List.append_cancel_left hd)

/-- For a fixed directory, `joinPath` is injective in the name. -/
lemma joinPath_right_inj {dir n1 n2 : String}
    (h : joinPath dir n1 = joinPath dir n2) : n1 = n2 := by
  unfold joinPath at h
  split_ifs at h
  · exact h
  · exact string_append_left_cancel h
  · exact string_append_left_cancel (a := dir ++ "/") h

/-- C8: the output file name label is always one of the five tokens, and for
a fixed output directory the construction is injective over distinct
(baseName, label) pairs drawn from those tokens. -/
theorem claim_C8 :
    (∀ (m : String) (v : Bool), (scaleSelect m v).2.1 ∈ modeLabels) ∧
    (∀ (dir b1 b2 l1 l2 : String), l1 ∈ modeLabels → l2 ∈ modeLabels →
      outputFileName dir b1 l1 = outputFileName dir b2 l2 →
      b1 = b2 ∧ l1 = l2) := by
  constructor
  · intro m v
    by_cases hA : m = "360p" ∨ m = "480p" ∨ m = "720p"
    · have hlab : (scaleSelect m v).2.1 = m := by simp [scaleSelect, hA]
      rw [hlab]
      rcases hA with rfl | rfl | rfl <;> decide
    · by_cases hB : m = "9.5MB"
      · subst hB
        have hlab : (scaleSelect "9.5MB" v).2.1 = "9.5MB" := by simp [scaleSelect]
        rw [hlab]; decide
      · have hlab : (scaleSelect m v).2.1 = "default" := by simp [scaleSelect, hA, hB]
        rw [hlab]; decide
  · intro dir b1 b2 l1 l2 hl1 hl2 heq
    have hnames : b1 ++ "_" ++ l1 ++ ".mp4" = b2 ++ "_" ++ l2 ++ ".mp4" :=
      joinPath_right_inj heq
    have hm1 : l1 = "360p" ∨ l1 = "480p" ∨ l1 = "720p" ∨ l1 = "9.5MB" ∨ l1 = "default" := by
      simpa [modeLabels] using hl1
    have hm2 : l2 = "360p" ∨ l2 = "480p" ∨ l2 = "720p" ∨ l2 = "9.5MB" ∨ l2 = "default" := by
      simpa [modeLabels] using hl2
    have h1 : '_' ∉ l1.data := by
      rcases hm1 with rfl | rfl | rfl | rfl | rfl <;> decide
    have h2 : '_' ∉ l2.data := by
      rcases hm2 with rfl | rfl | rfl | rfl | rfl <;> decide
    exact fileName_inj b1 b2 l1 l2 h1 h2 hnames

/-- Witness for C8: the pair (clip, 360p) maps to clip_360p.mp4 and the
injectivity theorem applies to it. -/
theorem claim_C8_witness : ("clip" : String) = "clip" ∧ ("360p" : String) = "360p" :=
  claim_C8.2 "/out" "clip" "clip" "360p" "360p" (by decide) (by decide) rfl

/-- Every run produces one of four traces: nothing spawned, only the
duration probe, both probes, or both probes followed by the encoder (and in
the last case the outcome is the encoder invocation). -/
lemma runFfmpeg_shape (env : Env) :
    (runFfmpeg env).1 = [] ∨ (runFfmpeg env).1 = [.probeDuration] ∨
    (runFfmpeg env).1 = [.probeDuration, .probeResolution] ∨
    ∃ cmd out, runFfmpeg env =
      ([.probeDuration, .probeResolution, .encode cmd], .runEncode cmd out) := by
  simp only [runFfmpeg, sizeBranch]
  repeat' split
  all_goals first
    | exact Or.inl rfl
    | exact Or.inr (Or.inl rfl)
    | exact Or.inr (Or.inr (Or.inl rfl))
    | exact Or.inr (Or.inr (Or.inr ⟨_, _, rfl⟩))


/-- Concrete environment: valid source, successful probes, but the output
directory "/nope" does not exist. -/
def envC4 : Env :=
  { inputEntry := "/v.mp4", outputDirEntry := "/nope", mode := "360p"
  , useNvenc := false, pathExists := fun s => s == "/v.mp4"
  , home := "/home/u", durationResult := some 60
  , resolutionResult := "1920x1080" }

/-- Concrete environment with an empty input entry. -/
def envNoInput : Env :=
  { inputEntry := "", outputDirEntry := "", mode := "360p"
  , useNvenc := false, pathExists := fun _ => false
  , home := "/home/u", durationResult := none, resolutionResult := "unknown" }

/-- C4, as stated, is false: with a valid source but a missing output
directory, the run ends in the output-directory error, yet both probe
processes were already spawned (the trace is not empty). -/
theorem claim_C4_cx :
    runFfmpeg envC4 = ([.probeDuration, .probeResolution],
      .errOutputDirMissing "/nope") ∧
    (runFfmpeg envC4).1 ≠ [] := by
  exact ⟨rfl, by decide⟩

/-- C4 (amended): a missing input entry or a nonexistent source file aborts
before any external process is spawned; a missing or invalid output
directory aborts before the ENCODER is spawned, but after the two probe
invocations. -/
theorem claim_C4 : ∀ env : Env,
    ((pyStrip env.inputEntry = "" ∨
        env.pathExists (pyStrip env.inputEntry) = false) →
      (runFfmpeg env).1 = []) ∧
    (∀ d, (runFfmpeg env).2 = .errOutputDirMissing d →
      encoderFree (runFfmpeg env).1 = true) := by
  intro env
  constructor
  · rintro (h | h)
    · simp [runFfmpeg, h]
    · rcases eq_or_ne (pyStrip env.inputEntry) "" with h0 | h0
      · simp [runFfmpeg, h0]
      · simp [runFfmpeg, h0, h]
  · intro d hd
    rcases runFfmpeg_shape env with h1 | h1 | h1 | ⟨cmd, out, h1⟩
    · rw [h1]; rfl
    · rw [h1]; rfl
    · rw [h1]; rfl
    · rw [h1] at hd
      simp at hd

/-- Witness for C4 (amended): the empty-input run spawns nothing, and the
missing-output-directory run has an encoder-free trace. -/
theorem claim_C4_witness :
    (runFfmpeg envNoInput).1 = [] ∧ encoderFree (runFfmpeg envC4).1 = true :=
  ⟨(claim_C4 envNoInput).1 (Or.inl rfl), (claim_C4 envC4).2 "/nope" rfl⟩

/-- Concrete environment in which the resolution probe failed (the helper
returned "unknown") but everything else is valid. -/
def envC5 : Env :=
  { inputEntry := "/v.mp4", outputDirEntry := "/out", mode := "360p"
  , useNvenc := false, pathExists := fun s => s == "/v.mp4" || s == "/out"
  , home := "/home/u", durationResult := some 10
  , resolutionResult := "unknown" }

/-- Concrete environment in which the duration probe failed. -/
def envNoDuration : Env :=
  { inputEntry := "/v.mp4", outputDirEntry := "/out", mode := "360p"
  , useNvenc := false, pathExists := fun s => s == "/v.mp4" || s == "/out"
  , home := "/home/u", durationResult := none, resolutionResult := "unknown" }

/-- C5, as stated, is false: with the resolution probe failed ("unknown"),
the encode is NOT aborted - the encoder is spawned, treating the video as
landscape (640x360 scaling). -/
theorem claim_C5_cx :
    envC5.resolutionResult = "unknown" ∧
    encoderFree (runFfmpeg envC5).1 = false ∧
    (runFfmpeg envC5).2 =
      .runEncode
        ["ffmpeg", "-i", "/v.mp4", "-vf", "scale=640:360", "-c:v", "libx264",
         "-preset", "slow", "-crf", "23", "-c:a", "aac", "-b:a", "128k",
         "-ar", "44100", "/out/v_360p.mp4"]
        "/out/v_360p.mp4" :=
  ⟨rfl, rfl, rfl⟩

/-- C5 (amended): a failed duration probe aborts the request with no encoder
invocation, and an unparsable (non-"unknown") resolution string also stops
before the encoder; but a failed resolution probe, which the helper reports
as "unknown", does not abort: the run proceeds exactly as it would for a
landscape source. -/
theorem claim_C5 : ∀ env : Env,
    (env.durationResult = none → encoderFree (runFfmpeg env).1 = true) ∧
    (env.resolutionResult ≠ "unknown" →
      parseResolution env.resolutionResult = none →
      encoderFree (runFfmpeg env).1 = true) ∧
    (env.resolutionResult = "unknown" →
      runFfmpeg env = runFfmpeg { env with resolutionResult := "1920x1080" }) := by
  intro env
  obtain ⟨ie, ode, m, un, pe, hm, dr, rr⟩ := env
  refine ⟨?_, ?_, ?_⟩
  · intro h
    simp only at h
    subst h
    rcases eq_or_ne (pyStrip ie) "" with h0 | h0
    · simp [runFfmpeg, h0, encoderFree]
    · rcases Bool.eq_false_or_eq_true (pe (pyStrip ie)) with h1 | h1
      · simp [runFfmpeg, h0, h1, encoderFree]
      · simp [runFfmpeg, h0, h1, encoderFree]
  · intro hne hp
    simp only at hne hp
    rcases eq_or_ne (pyStrip ie) "" with h0 | h0
    · simp [runFfmpeg, h0, encoderFree]
    · cases dr with
      | none =>
        rcases Bool.eq_false_or_eq_true (pe (pyStrip ie)) with h1 | h1 <;>
          simp [runFfmpeg, h0, h1, encoderFree]
      | some d =>
        rcases Bool.eq_false_or_eq_true (pe (pyStrip ie)) with h1 | h1 <;>
          simp [runFfmpeg, h0, h1, hne, hp, encoderFree]
  · intro h
    simp only at h
    subst h
    rfl

/-- Witness for C5 (amended): the failed-duration run is encoder-free, and
the "unknown"-resolution run coincides with the landscape run. -/
theorem claim_C5_witness :
    encoderFree (runFfmpeg envNoDuration).1 = true ∧
    runFfmpeg envC5 = runFfmpeg { envC5 with resolutionResult := "1920x1080" } :=
  ⟨(claim_C5 envNoDuration).1 rfl, (claim_C5 envC5).2.2 rfl⟩

end MovieEnc
